import Mathlib

/-
Verification of the no-cache static-file HTTP server (src/server.py).

The repository's custom code is a single subclass of the standard
file-serving request handler that overrides the header-finalization hook
to append three cache-defeating headers, plus a startup block that binds
TCP port 8000, prints one line, and serves forever.  The custom hook is
embedded directly from the source; the behavior of the reused standard
library (file serving, error pages, socket binding, the serve loop) is
modelled from the specification where noted.
-/

namespace NoCacheServer

/-- The fixed listening port, src/server.py line 12 (`PORT = 8000`). -/
def PORT : Nat := 8000

/-- The bind address, src/server.py line 13: the empty string, meaning
all local interfaces. -/
def bindAddress : String := ""

/-- The startup line printed to stdout, src/server.py line 14. -/
def startupMessage : String :=
  "Server running at http://localhost:" ++ toString PORT ++ "/"

/-- The `Cache-Control` override header, src/server.py line 7. -/
def cacheControlHeader : String × String :=
  ("Cache-Control", "no-store, no-cache, must-revalidate, max-age=0")

/-- The `Pragma` override header, src/server.py line 8. -/
def pragmaHeader : String × String := ("Pragma", "no-cache")

/-- The `Expires` override header, src/server.py line 9. -/
def expiresHeader : String × String := ("Expires", "0")

/-- The three override headers in the order the source appends them. -/
def overrideHeaders : List (String × String) :=
  [cacheControlHeader, pragmaHeader, expiresHeader]

/-- State of one in-flight request handler: the resolved request path, the
status code already chosen, the pending (not yet transmitted) header
buffer, the header block once it has been finalized and transmitted, and
the body bytes written after the header block. -/
structure HandlerState where
  requestPath : String
  status : Option Nat
  headersBuffer : List (String × String)
  sentHeaders : Option (List (String × String))
  body : List Nat
deriving Repr, DecidableEq

/-- Modelled from the spec: `send_header` of the reused base handler
buffers one name/value pair onto the pending header block without
transmitting anything. -/
def send_header (s : HandlerState) (name value : String) : HandlerState :=
  { s with headersBuffer := s.headersBuffer ++ [(name, value)] }

/-- Modelled from the spec: the base handler's `end_headers` finalizes the
pending header block, terminating it and transmitting it before any body
byte is sent. -/
def base_end_headers (s : HandlerState) : HandlerState :=
  { s with sentHeaders := some s.headersBuffer, headersBuffer := [] }

/-- `NoCacheHTTPRequestHandler.end_headers`, src/server.py lines 6-10:
append the three override headers to the pending block, then delegate to
the base implementation. -/
def end_headers (s : HandlerState) : HandlerState :=
  base_end_headers
    (send_header
      (send_header
        (send_header s "Cache-Control" "no-store, no-cache, must-revalidate, max-age=0")
        "Pragma" "no-cache")
      "Expires" "0")

/-- A finished HTTP response: status code, transmitted header block, body
bytes. -/
structure Response where
  status : Nat
  headers : List (String × String)
  body : List Nat
deriving Repr, DecidableEq

/-- The served root as a finite map from request paths to file contents
(byte lists).  The filesystem is external, read-only state. -/
def Fs : Type := List (String × List Nat)

/-- Look a request path up in the served root. -/
def lookupFile (fs : Fs) (path : String) : Option (List Nat) :=
  (fs.find? (fun e => e.1 == path)).map (fun e => e.2)

/-- Modelled from the spec: the standard 404 error page body produced by
the reused file-serving logic. -/
def errorBody404 : List Nat :=
  ("404 Not Found".toList).map Char.toNat

/-- Modelled from the spec: the headers the reused base file-serving logic
adds on its own before the header block is finalized (server banner, date,
content metadata); none of them is one of the three override headers. -/
def baseHeaders (status : Nat) (bodyLen : Nat) : List (String × String) :=
  if status == 200 then
    [("Server", "SimpleHTTP"), ("Date", "-"),
     ("Content-type", "text/html"), ("Content-Length", toString bodyLen)]
  else
    [("Server", "SimpleHTTP"), ("Date", "-"),
     ("Content-Type", "text/html"), ("Content-Length", toString bodyLen),
     ("Connection", "close")]

/-- Run the handler tail for one response: starting from the state the
base logic built (status chosen, its own headers buffered, no body yet),
call the single overridden `end_headers` hook and then write the body. -/
def runHandler (path : String) (status : Nat) (bodyBytes : List Nat) : HandlerState :=
  let s0 : HandlerState :=
    { requestPath := path
      status := some status
      headersBuffer := baseHeaders status bodyBytes.length
      sentHeaders := none
      body := [] }
  let s1 := end_headers s0
  { s1 with body := bodyBytes }

/-- Modelled from the spec: handle one request.  The reused base logic
resolves the path under the served root; an existing file is streamed with
status 200, a missing one gets the standard 404 error response.  Both
paths finalize their headers through the one overridden `end_headers`. -/
def handleRequest (fs : Fs) (path : String) : Response :=
  match lookupFile fs path with
  | some bytes =>
      let s := runHandler path 200 bytes
      { status := 200, headers := s.sentHeaders.getD [], body := s.body }
  | none =>
      let s := runHandler path 404 errorBody404
      { status := 404, headers := s.sentHeaders.getD [], body := s.body }

/-- How many headers named `n` a header block carries. -/
def countName (hs : List (String × String)) (n : String) : Nat :=
  hs.countP (fun p => p.1 == n)

/-- The whole server state between requests: only the read-only served
root; the handler keeps no mutable state across requests. -/
structure ServerState where
  fs : Fs

/-- Serve one request: produce its response and the server state left for
the next request. -/
def serveOne (st : ServerState) (path : String) : Response × ServerState :=
  (handleRequest st.fs path, st)

/-- Serve a sequence of requests in order, threading the server state. -/
def serveAll (st : ServerState) : List String → List Response
  | [] => []
  | p :: ps =>
      let r := serveOne st p
      r.1 :: serveAll r.2 ps

/-- Modelled from the spec: the ways binding the listening socket can
fail at startup. -/
inductive BindError where
  | portInUse
  | permissionDenied
deriving Repr, DecidableEq

/-- Modelled from the spec: the observable outcome of process startup:
either the server is running (bound port, lines printed to stdout) or the
process terminated fatally with a bind diagnostic. -/
inductive StartupResult where
  | running (boundPort : Nat) (stdout : List String)
  | fatalExit (diagnostic : BindError)
deriving Repr, DecidableEq

/-- Modelled from the spec: bind the TCP listening socket on a port,
failing when the port is already in use or binding is not permitted. -/
def bindSocket (inUse : Nat → Bool) (permitted : Nat → Bool) (port : Nat) :
    Except BindError Unit :=
  if inUse port then Except.error BindError.portInUse
  else if permitted port then Except.ok ()
  else Except.error BindError.permissionDenied

/-- Startup of src/server.py lines 12-15: bind port `PORT`; on failure
terminate with the diagnostic before serving anything, otherwise print the
startup line and run. -/
def startup (inUse : Nat → Bool) (permitted : Nat → Bool) : StartupResult :=
  match bindSocket inUse permitted PORT with
  | Except.error e => StartupResult.fatalExit e
  | Except.ok _ => StartupResult.running PORT [startupMessage]

/-- The configuration the program runs with, as a function of the
command line and the environment: src/server.py reads neither, so the
result is the hard-coded address and port. -/
def mainConfig (_argv : List String) (_env : List (String × String)) :
    String × Nat :=
  (bindAddress, PORT)

/-- Modelled from the spec: the accept loop of `serve_forever` is either
accepting connections or halted. -/
inductive LoopState where
  | accepting
  | halted
deriving Repr, DecidableEq

/-- Modelled from the spec: one step of the `serve_forever` loop.  Every
connection event leaves the loop accepting; there is no transition out of
the loop, and a halted loop stays halted. -/
def loopNext : LoopState → String → LoopState
  | LoopState.accepting, _ => LoopState.accepting
  | LoopState.halted, _ => LoopState.halted

/-- The loop state after serving any finite sequence of connections,
starting from the freshly bound, accepting server. -/
def loopRun (conns : List String) : LoopState :=
  conns.foldl loopNext LoopState.accepting

/-- A sample handler state with base-supplied headers, used to witness the
header theorems on a concrete input. -/
def sampleState : HandlerState :=
  { requestPath := "/index.html"
    status := some 200
    headersBuffer := baseHeaders 200 2
    sentHeaders := none
    body := [] }

/-- A sample served root holding one two-byte file. -/
def sampleFs : Fs := [("/index.html", [104, 105])]

lemma countName_append (l₁ l₂ : List (String × String)) (n : String) :
    countName (l₁ ++ l₂) n = countName l₁ n + countName l₂ n := by
  simp [countName, List.countP_append]

lemma countName_eq_zero {l : List (String × String)} {n : String}
    (h : ∀ p ∈ l, p.1 ≠ n) : countName l n = 0 := by
  simp only [countName]
  exact List.countP_eq_zero.mpr (fun p hp => by simpa using h p hp)

lemma end_headers_sentHeaders (s : HandlerState) :
    (end_headers s).sentHeaders = some (s.headersBuffer ++ overrideHeaders) := by
  simp [end_headers, send_header, base_end_headers, overrideHeaders,
    cacheControlHeader, pragmaHeader, expiresHeader]

/-- C1: whatever headers the base logic buffered (none of them one of the
three override names) and whatever the status, the finalized header block
carries exactly one `Cache-Control`, one `Pragma` and one `Expires`
header, each with its mandated value. -/
theorem override_headers_exactly_once (s : HandlerState)
    (h : ∀ p ∈ s.headersBuffer,
      p.1 ≠ "Cache-Control" ∧ p.1 ≠ "Pragma" ∧ p.1 ≠ "Expires") :
    ∃ hs, (end_headers s).sentHeaders = some hs ∧
      countName hs "Cache-Control" = 1 ∧
      countName hs "Pragma" = 1 ∧
      countName hs "Expires" = 1 ∧
      cacheControlHeader ∈ hs ∧ pragmaHeader ∈ hs ∧ expiresHeader ∈ hs := by
  refine ⟨s.headersBuffer ++ overrideHeaders, end_headers_sentHeaders s,
    ?_, ?_, ?_, ?_, ?_, ?_⟩
  · rw [countName_append, countName_eq_zero (fun p hp => (h p hp).1)]
    decide
  · rw [countName_append, countName_eq_zero (fun p hp => (h p hp).2.1)]
    decide
  · rw [countName_append, countName_eq_zero (fun p hp => (h p hp).2.2)]
    decide
  · exact List.mem_append_right _ (by decide)
  · exact List.mem_append_right _ (by decide)
  · exact List.mem_append_right _ (by decide)

/-- Witness for C1 at a concrete handler state. -/
theorem override_headers_exactly_once_witness :
    (∀ p ∈ sampleState.headersBuffer,
      p.1 ≠ "Cache-Control" ∧ p.1 ≠ "Pragma" ∧ p.1 ≠ "Expires") ∧
    (∃ hs, (end_headers sampleState).sentHeaders = some hs ∧
      countName hs "Cache-Control" = 1 ∧
      countName hs "Pragma" = 1 ∧
      countName hs "Expires" = 1 ∧
      cacheControlHeader ∈ hs ∧ pragmaHeader ∈ hs ∧ expiresHeader ∈ hs) :=
  ⟨by decide, override_headers_exactly_once sampleState (by decide)⟩

/-- C2: the overridden `end_headers` is the single point that finalizes
the header block; the block it transmits is exactly the base-buffered
headers followed by `Cache-Control`, then `Pragma`, then `Expires`, in
that order, and no body byte is written by it. -/
theorem end_headers_injection_order (s : HandlerState) :
    (end_headers s).sentHeaders =
      some (s.headersBuffer ++ [cacheControlHeader, pragmaHeader, expiresHeader]) ∧
    (end_headers s).body = s.body := by
  exact ⟨end_headers_sentHeaders s, rfl⟩

/-- C3: a request for a file present under the served root returns status
200 with the file bytes unchanged as the body, and the header block is
the base headers followed by the three override headers. -/
theorem existing_file_served (fs : Fs) (path : String) (bytes : List Nat)
    (h : lookupFile fs path = some bytes) :
    (handleRequest fs path).status = 200 ∧
    (handleRequest fs path).body = bytes ∧
    (handleRequest fs path).headers =
      baseHeaders 200 bytes.length ++ overrideHeaders := by
  refine ⟨?_, ?_, ?_⟩ <;>
    simp [handleRequest, h, runHandler, end_headers_sentHeaders]

/-- Witness for C3 on a one-file served root. -/
theorem existing_file_served_witness :
    lookupFile sampleFs "/index.html" = some [104, 105] ∧
    ((handleRequest sampleFs "/index.html").status = 200 ∧
     (handleRequest sampleFs "/index.html").body = [104, 105] ∧
     (handleRequest sampleFs "/index.html").headers =
       baseHeaders 200 2 ++ overrideHeaders) :=
  ⟨by decide, existing_file_served sampleFs "/index.html" [104, 105] (by decide)⟩

/-- C4: a request for a path with no file under the served root returns
the standard 404 response, whose header block still carries exactly one
of each override header; the handler is a total function, so the error is
confined to that one response. -/
theorem missing_file_404 (fs : Fs) (path : String)
    (h : lookupFile fs path = none) :
    (handleRequest fs path).status = 404 ∧
    (handleRequest fs path).headers =
      baseHeaders 404 errorBody404.length ++ overrideHeaders ∧
    countName (handleRequest fs path).headers "Cache-Control" = 1 ∧
    countName (handleRequest fs path).headers "Pragma" = 1 ∧
    countName (handleRequest fs path).headers "Expires" = 1 := by
  have hH : (handleRequest fs path).headers =
      baseHeaders 404 errorBody404.length ++ overrideHeaders := by
    simp [handleRequest, h, runHandler, end_headers_sentHeaders]
  refine ⟨?_, hH, ?_, ?_, ?_⟩
  · simp [handleRequest, h]
  · rw [hH]; decide
  · rw [hH]; decide
  · rw [hH]; decide

/-- Witness for C4 on a path absent from the served root. -/
theorem missing_file_404_witness :
    lookupFile sampleFs "/does-not-exist.xyz" = none ∧
    ((handleRequest sampleFs "/does-not-exist.xyz").status = 404 ∧
     (handleRequest sampleFs "/does-not-exist.xyz").headers =
       baseHeaders 404 errorBody404.length ++ overrideHeaders ∧
     countName (handleRequest sampleFs "/does-not-exist.xyz").headers "Cache-Control" = 1 ∧
     countName (handleRequest sampleFs "/does-not-exist.xyz").headers "Pragma" = 1 ∧
     countName (handleRequest sampleFs "/does-not-exist.xyz").headers "Expires" = 1) :=
  ⟨by decide, missing_file_404 sampleFs "/does-not-exist.xyz" (by decide)⟩

/-- C5: a bind failure at startup terminates the process with the bind
diagnostic before anything is served, a successful bind is the only way
to reach the running state, and a second instance started while the port
is in use fails fast with the port-in-use error. -/
theorem bind_failure_fatal (inUse permitted : Nat → Bool) :
    (∀ e, bindSocket inUse permitted PORT = Except.error e →
      startup inUse permitted = StartupResult.fatalExit e) ∧
    (bindSocket inUse permitted PORT = Except.ok () →
      startup inUse permitted = StartupResult.running PORT [startupMessage]) ∧
    (inUse PORT = true →
      startup inUse permitted = StartupResult.fatalExit BindError.portInUse) := by
  refine ⟨?_, ?_, ?_⟩
  · intro e he; simp [startup, he]
  · intro hok; simp [startup, hok]
  · intro hu; simp [startup, bindSocket, hu]

/-- Witness for C5: with port 8000 already in use, startup exits fatally
with the port-in-use diagnostic. -/
theorem bind_failure_fatal_witness :
    (fun _ : Nat => true) PORT = true ∧
    startup (fun _ => true) (fun _ => true) =
      StartupResult.fatalExit BindError.portInUse :=
  ⟨rfl, (bind_failure_fatal (fun _ => true) (fun _ => true)).2.2 rfl⟩

/-- C6: the server binds the empty address (all interfaces) on the fixed
port 8000, and its configuration is the same whatever the command line
and environment, since neither is read. -/
theorem fixed_port_no_config :
    PORT = 8000 ∧ bindAddress = "" ∧
    (∀ argv env, mainConfig argv env = (bindAddress, PORT)) ∧
    (∀ argv₁ env₁ argv₂ env₂, mainConfig argv₁ env₁ = mainConfig argv₂ env₂) :=
  ⟨rfl, rfl, fun _ _ => rfl, fun _ _ _ _ => rfl⟩

/-- C7: on a successful bind the process stdout is exactly the single
line `Server running at http://localhost:8000/`. -/
theorem startup_prints_single_line :
    startupMessage = "Server running at http://localhost:8000/" ∧
    ∀ inUse permitted : Nat → Bool, inUse PORT = false → permitted PORT = true →
      startup inUse permitted =
        StartupResult.running PORT ["Server running at http://localhost:8000/"] := by
  refine ⟨rfl, ?_⟩
  intro inUse permitted h1 h2
  simp [startup, bindSocket, h1, h2]
  rfl

/-- Witness for C7 with a free port that may be bound. -/
theorem startup_prints_single_line_witness :
    (fun _ : Nat => false) PORT = false ∧
    (fun _ : Nat => true) PORT = true ∧
    startup (fun _ => false) (fun _ => true) =
      StartupResult.running PORT ["Server running at http://localhost:8000/"] :=
  ⟨rfl, rfl, startup_prints_single_line.2 (fun _ => false) (fun _ => true) rfl rfl⟩

/-- C8: serving a request leaves the server state unchanged, so two
sequential requests for the same path against an unchanged served root
produce the same response — same status, headers and body — both times. -/
theorem sequential_requests_identical (st : ServerState) (p : String) :
    (serveOne st p).2 = st ∧
    serveAll st [p, p] = [handleRequest st.fs p, handleRequest st.fs p] :=
  ⟨rfl, rfl⟩

/-- C9: the accept loop never leaves the accepting state of its own
accord: after any finite sequence of served connections it is still
accepting, never halted. -/
theorem serve_forever_never_halts (conns : List String) :
    loopRun conns = LoopState.accepting := by
  induction conns with
  | nil => rfl
  | cons c cs ih =>
      simpa [loopRun, List.foldl_cons, loopNext] using ih

/-- C10: the overridden `end_headers` hook changes nothing but the header
block: the status, resolved request path and body bytes are untouched,
the pending buffer is flushed, and the names of the transmitted headers
are exactly the buffered names followed by the three override names. -/
theorem end_headers_frame (s : HandlerState) :
    (end_headers s).status = s.status ∧
    (end_headers s).requestPath = s.requestPath ∧
    (end_headers s).body = s.body ∧
    (end_headers s).headersBuffer = [] ∧
    ((end_headers s).sentHeaders.getD []).map Prod.fst =
      s.headersBuffer.map Prod.fst ++ ["Cache-Control", "Pragma", "Expires"] := by
  refine ⟨rfl, rfl, rfl, rfl, ?_⟩
  rw [end_headers_sentHeaders]
  simp [overrideHeaders, cacheControlHeader, pragmaHeader, expiresHeader]

end NoCacheServer
